import Mathlib

/-
Shallow embedding of `spatialdata_io/readers/xenium.py` (the 10x Xenium reader):
the version parser, identifier normalisation, polygon / label / table / circle /
image extraction steps and the aligned-image discovery logic, together with
theorems settling the frozen claims about this module.
-/

/-- A parsed Xenium Analyzer version, as produced by
`_parse_version_of_xenium_analyzer`: the regex group is
`MAJOR.MINOR.PATCH` optionally followed by `.BUILD-REV`, which
`packaging.version.parse` reads as a fourth release component plus a
post-release number. -/
structure XVersion where
  major : Nat
  minor : Nat
  patch : Nat
  build : Option (Nat × Nat)
deriving DecidableEq

/-- The PEP 440 release tuple of an `XVersion` (the post-release number is
handled separately, as `packaging` does). -/
def XVersion.relList (v : XVersion) : List Nat :=
  [v.major, v.minor, v.patch] ++ (match v.build with
    | some (d, _) => [d]
    | none => [])

/-- The post-release number of an `XVersion`, when present. -/
def XVersion.postNum (v : XVersion) : Option Nat :=
  v.build.map (fun p => p.2)

/-- Lexicographic comparison of release tuples, padding the shorter tuple
with zeros (PEP 440 release ordering). -/
def lexLtPad : List Nat → List Nat → Bool
  | [], ys => ys.any (fun y => decide (0 < y))
  | x :: xs, [] => decide (x = 0) && lexLtPad xs []
  | x :: xs, y :: ys =>
    if x < y then true
    else if x = y then lexLtPad xs ys
    else false

/-- PEP 440 post-release comparison: a version without a post-release
sorts before the same release with one. -/
def postLt : Option Nat → Option Nat → Bool
  | none, none => false
  | none, some _ => true
  | some _, none => false
  | some a, some b => decide (a < b)

/-- Strict order on parsed versions, mirroring `packaging.version.Version`
comparison on the shapes the regex can produce. -/
def XVersion.lt (a b : XVersion) : Bool :=
  if lexLtPad a.relList b.relList then true
  else if lexLtPad b.relList a.relList then false
  else postLt a.postNum b.postNum

/-- The literal version `2.0.0`, against which the reader branches. -/
def v200 : XVersion := ⟨2, 0, 0, none⟩

/-- Expect a literal character sequence at the head of the input. -/
def expectLit : List Char → List Char → Option (List Char)
  | [], cs => some cs
  | p :: ps, c :: cs => if c = p then expectLit ps cs else none
  | _ :: _, [] => none

/-- Numeric value of a decimal digit character. -/
def digitVal (c : Char) : Nat := c.toNat - 48

/-- Natural number denoted by a list of decimal digit characters. -/
def natOfDigits (ds : List Char) : Nat :=
  List.foldl (fun acc c => 10 * acc + digitVal c) 0 ds

/-- Maximal-munch parse of `\d+` at the head of the input (as the greedy
regex quantifier does). -/
def parseNat (cs : List Char) : Option (Nat × List Char) :=
  let ds := cs.takeWhile Char.isDigit
  if ds.isEmpty then none
  else some (natOfDigits ds, cs.dropWhile Char.isDigit)

/-- Expect one specific character at the head of the input. -/
def expectChar (c : Char) : List Char → Option (List Char)
  | x :: xs => if x = c then some xs else none
  | [] => none

/-- The regex match of `^xenium-(\d+\.\d+\.\d+(\.\d+-\d+)?)` performed by
`_parse_version_of_xenium_analyzer`, returning the parsed group. The inner
group is optional: when `.BUILD-REV` does not follow, the match succeeds
without it (regex backtracking); trailing characters are ignored since the
pattern is only anchored at the start. -/
def matchVersionGroup (cs : List Char) : Option XVersion := do
  let cs ← expectLit ("xenium-".toList) cs
  let (a, cs) ← parseNat cs
  let cs ← expectChar '.' cs
  let (b, cs) ← parseNat cs
  let cs ← expectChar '.' cs
  let (c, cs) ← parseNat cs
  let build : Option (Nat × Nat) := do
    let cs ← expectChar '.' cs
    let (d, cs) ← parseNat cs
    let cs ← expectChar '-' cs
    let (r, _) ← parseNat cs
    pure (d, r)
  some ⟨a, b, c, build⟩

/-- `_parse_version_of_xenium_analyzer(specs, hide_warning)`: returns the
parsed version (`none` is the Python `None` unknown-version sentinel) and
the number of warnings emitted. On no regex match the function warns
(unless suppressed) and returns the sentinel; every string the regex does
match is a valid PEP 440 version, so the `InvalidVersion` fallback warns on
no further inputs. -/
def parseVersionOfXeniumAnalyzer (versionString : String) (hideWarning : Bool) :
    Option XVersion × Nat :=
  match matchVersionGroup versionString.toList with
  | none => (none, if hideWarning then 0 else 1)
  | some v => (some v, 0)

/-- The comparison `version < packaging.version.parse("2.0.0")` at the top
of the image-extraction section of `xenium` (line 189). It is evaluated
unconditionally on every run; in Python, comparing `None` (the
unknown-version sentinel) with a `Version` raises `TypeError`, so the run
aborts there. -/
def xeniumVersionBranch (version : Option XVersion) : Except String Bool :=
  match version with
  | none => .error "TypeError: comparison between NoneType and Version is unsupported"
  | some v => .ok (XVersion.lt v v200)

/-- The `specs` record as the reader consumes it: the instrument-software
version string, the pixel size, and the derived region tag. -/
structure XSpecs where
  analysisSwVersion : String
  pixelSize : ℚ
  region : String
deriving DecidableEq

/-- The version used inside `_get_polygons`:
`_parse_version_of_xenium_analyzer(specs)` with the warning suppressed
(default `hide_warning=True`). -/
def xeniumVersionOf (specs : XSpecs) : Option XVersion :=
  (parseVersionOfXeniumAnalyzer specs.analysisSwVersion true).1

/-- The guard `version is not None and version < packaging.version.parse("2.0.0")`
of `_get_polygons` (line 282). -/
def isLegacy (version : Option XVersion) : Bool :=
  match version with
  | none => false
  | some v => XVersion.lt v v200

/-- A raw per-cell identifier as stored on disk: a fixed-width byte string,
an already-decoded text string, or an integer. -/
inductive RawId where
  | bytes (s : String)
  | str (s : String)
  | num (n : ℤ)
deriving DecidableEq

/-- `x.decode("utf-8")` on one element, for the homogeneous columns the
reader assumes (spec §4.2: the type of the first element decides for the whole
column, with no mixed-encoding fallback). -/
def decodeOne : RawId → RawId
  | .bytes s => .str s
  | x => x

/-- `_decode_cell_id_column`: when the first element is a byte string the
whole column is decoded, otherwise it is returned unchanged. -/
def decodeCellIdColumn (col : List RawId) : List RawId :=
  match col.head? with
  | some (.bytes _) => col.map decodeOne
  | _ => col

/-- Total order on raw identifiers used to model the sorted group keys of
`df.groupby` (`sort=True`); a real column is homogeneous, so only the
within-constructor comparisons are exercised. -/
def RawId.leB : RawId → RawId → Bool
  | .bytes a, .bytes b => decide (a ≤ b)
  | .bytes _, _ => true
  | .str _, .bytes _ => false
  | .str a, .str b => decide (a ≤ b)
  | .str _, .num _ => true
  | .num a, .num b => decide (a ≤ b)
  | .num _, _ => false

/-- Insert into a sorted list (helper for the sorted group-key order). -/
def insertSorted (a : RawId) : List RawId → List RawId
  | [] => [a]
  | b :: l => if RawId.leB a b then a :: b :: l else b :: insertSorted a l

/-- Sort a list of raw identifiers. -/
def sortIds (l : List RawId) : List RawId :=
  List.foldr insertSorted [] l

/-- The group keys of `df.groupby(cell_id)`: the distinct cell identifiers
in sorted order (pandas groups with `sort=True`; `indices.keys()` and group
iteration follow the same order). -/
def sortedKeys (rows : List (RawId × ℚ × ℚ)) : List RawId :=
  sortIds (rows.map (fun r => r.1)).dedup

/-- The vertex rows of one group, in original row order (pandas preserves
within-group order). -/
def groupVertices (rows : List (RawId × ℚ × ℚ)) (k : RawId) : List (ℚ × ℚ) :=
  (rows.filter (fun r => r.1 = k)).map (fun r => r.2)

/-- `_poly(arr) = Polygon(arr[:-1])`: the polygon ring is the vertex list
with its final (closing) vertex removed. -/
def poly (arr : List (ℚ × ℚ)) : List (ℚ × ℚ) :=
  arr.dropLast

/-- The polygon list built by `_get_polygons`, one polygon per group key in
group order. -/
def polysOf (rows : List (RawId × ℚ × ℚ)) : List (List (ℚ × ℚ)) :=
  (sortedKeys rows).map (fun k => poly (groupVertices rows k))

/-- A coordinate transform attached to an element. -/
inductive XTransform where
  | identity
  | scale (factors : List ℚ)
  | affine (matrix : List (List ℚ)) (inputAxes : List String) (outputAxes : List String)
deriving DecidableEq

/-- The `Scale([1/pixel_size, 1/pixel_size], axes=("x","y"))` transform
used throughout the reader (the named axes are fixed to x, y). -/
def pixelScaleOf (specs : XSpecs) : XTransform :=
  XTransform.scale [1 / specs.pixelSize, 1 / specs.pixelSize]

/-- The shapes element returned by `_get_polygons`. -/
structure XPolygons where
  index : List RawId
  polygons : List (List (ℚ × ℚ))
  transform : XTransform
  warnings : Nat
deriving DecidableEq

/-- `_get_polygons(path, file, specs, n_jobs, idx)`. Groups the boundary
rows by cell identifier, builds one ring per group via `_poly`, decodes the
grouped keys, then branches on the parsed version: on the legacy path
(version parsed and `< 2.0.0`) it asserts `idx` is present, that the group
count matches `len(idx)`, that the default integer row index is unique
(trivially true for a fresh frame), and that the decoded grouped keys equal
`idx` element for element, finally re-indexing by `idx`; otherwise the
grouped keys become the index and duplicate indices only emit a warning.
The worker-pool evaluation of `_poly` is order-preserving (results are
collected in submission order), so it is modelled by the plain map. -/
def getPolygons (rows : List (RawId × ℚ × ℚ)) (specs : XSpecs)
    (idx : Option (List RawId)) : Except String XPolygons :=
  let index := decodeCellIdColumn (sortedKeys rows)
  let out := polysOf rows
  if isLegacy (xeniumVersionOf specs) then
    match idx with
    | none => .error "AssertionError: idx is None"
    | some idxList =>
      if idxList.length ≠ (sortedKeys rows).length then
        .error "AssertionError: length mismatch"
      else if (List.range out.length).dedup.length ≠ out.length then
        .error "AssertionError: non-unique default index"
      else if index ≠ idxList then
        .error "AssertionError: index differs from idx"
      else .ok ⟨idxList, out, pixelScaleOf specs, 0⟩
  else
    .ok ⟨index, out, pixelScaleOf specs,
      if index.dedup.length ≠ index.length then 1 else 0⟩

/-- One row of the per-cell metadata table (`cells.parquet`): the cell
identifier, the centroid coordinates and the nucleus area (the remaining
annotation columns play no role in any claim and are carried nowhere
else by the code paths modelled here). -/
structure MetaRow where
  cellId : RawId
  x : ℚ
  y : ℚ
  nucleusArea : ℚ
deriving DecidableEq

/-- The single quote character, built by code point to keep the Python
`str(...)` rendering of byte strings faithful. -/
def pyQuote : String := String.mk [Char.ofNat 39]

/-- Python `str(...)` as applied by `metadata.cell_id.astype(str)`:
a byte string renders as `b` followed by its quoted contents, a text
string is unchanged, an integer renders as its decimal digits. -/
def pyStr : RawId → String
  | .bytes s => "b" ++ pyQuote ++ s ++ pyQuote
  | .str s => s
  | .num n => toString n

/-- The annotated feature table assembled by `_get_tables_and_circles`:
observation names from the matrix, the spatial slot filled from the
metadata centroids, the decoded cell-identifier column, and the region
tag from specs. -/
structure XTable where
  obsNames : List String
  spatial : List (ℚ × ℚ)
  cellId : List RawId
  region : String
deriving DecidableEq

/-- The table part of `_get_tables_and_circles`, after the identifier
assertion has passed. -/
def mkTable (obsNames : List String) (metadata : List MetaRow) (specs : XSpecs) : XTable :=
  { obsNames := obsNames
    spatial := metadata.map (fun r => (r.x, r.y))
    cellId := decodeCellIdColumn (metadata.map (fun r => r.cellId))
    region := specs.region }

/-- The circle element built when `cells_as_circles` is set. -/
structure XCircles where
  centers : List (ℚ × ℚ)
  radii : List ℝ
  index : List RawId
  transform : XTransform

/-- The circle collection of `_get_tables_and_circles`: centers are the
metadata centroids, radii are `np.sqrt(nucleus_area / np.pi)`, the index is
the decoded cell-identifier column, and the pixel scale is attached. -/
noncomputable def mkCircles (metadata : List MetaRow) (specs : XSpecs) : XCircles :=
  { centers := metadata.map (fun r => (r.x, r.y))
    radii := metadata.map (fun r => Real.sqrt ((r.nucleusArea : ℝ) / Real.pi))
    index := decodeCellIdColumn (metadata.map (fun r => r.cellId))
    transform := pixelScaleOf specs }

/-- `_get_tables_and_circles(path, cells_as_circles, specs)`. First,
`np.testing.assert_array_equal(metadata.cell_id.astype(str), adata.obs_names.values)`
compares the stringified metadata identifiers with the matrix observation
names element for element — any difference is fatal and nothing is
returned. On success the table is assembled, and the circle collection is
additionally returned exactly when `cells_as_circles` is set. -/
noncomputable def getTablesAndCircles (obsNames : List String) (metadata : List MetaRow)
    (cellsAsCircles : Bool) (specs : XSpecs) : Except String (XTable × Option XCircles) :=
  if metadata.map (fun r => pyStr r.cellId) = obsNames then
    .ok (mkTable obsNames metadata specs,
      if cellsAsCircles then some (mkCircles metadata specs) else none)
  else
    .error "AssertionError: cell ids differ from obs names"

/-- An all-zero channel of the same shape as the given channel
(`da.zeros_like(image[0:1])` acting on one channel plane). -/
def zerosLike (c : List (List ℤ)) : List (List ℤ) :=
  c.map (fun row => row.map (fun _ => (0 : ℤ)))

/-- An image element as produced by `Image2DModel.parse` in this reader:
channel-first data, optional channel names, and the attached transform. -/
structure XImage where
  channels : List (List (List ℤ))
  cCoords : Option (List String)
  transform : XTransform
deriving DecidableEq

/-- `_get_images`: reads the image and unconditionally appends one
synthetic zero channel —
`da.concatenate([image, da.zeros_like(image[0:1])], axis=0)` — before
parsing with an identity transform. `image[0:1]` is the one-element slice
of the channel axis, so the appended block mirrors the shape of the first
channel (and is empty only for an impossible zero-channel read). -/
def getImages (image : List (List (List ℤ))) (cCoords : Option (List String)) : XImage :=
  { channels := image ++ (image.take 1).map zerosLike
    cCoords := cCoords
    transform := XTransform.identity }

/-- Modelled from the spec: the fixed per-channel filename pattern
`XeniumKeys.MORPHOLOGY_FOCUS_CHANNEL_IMAGE` for the modern
morphology-focus directory (the `XeniumKeys` constants module is not among
the analysed sources; the spec fixes a four-digit zero-padded index, which
for the single-digit indices 0–3 renders as three zeros and the digit). -/
def morphologyFocusChannelImage (i : Nat) : String :=
  "morphology_focus_000" ++ toString i ++ ".ome.tif"

/-- The expected file set of the modern focus directory: the channel files
for indices 0–3. -/
def expectedFocusFiles : List String :=
  (List.range 4).map morphologyFocusChannelImage

/-- Modelled from the spec: the four named focus channels
`XeniumKeys.MORPHOLOGY_FOCUS_CHANNEL_0 .. _3` (constants module not among
the analysed sources; only their distinctness from `"dummy"` matters). -/
def morphologyFocusChannelName (i : Nat) : String :=
  "morphology_focus_channel_" ++ toString i

/-- The five channel names assigned on the modern focus path: the four
named channels plus the synthetic `"dummy"` channel. -/
def focusChannelNames : List String :=
  (List.range 4).map morphologyFocusChannelName ++ ["dummy"]

/-- Set equality of two file-name lists (Python compares the directory
listing and the expected names as `set`s). -/
def sameSet (a b : List String) : Bool :=
  a.all (fun x => b.contains x) && b.all (fun x => a.contains x)

/-- The modern (`version ≥ 2.0.0` or unknown) morphology-focus branch of
`xenium` (lines 205–243): list the `.ome.tif` files of the focus
directory, assert the set equals exactly the four expected channel files,
assert the caller passed no `c_coords` of its own, then read through
`_get_images` with the five channel names (scale 0 of the first channel
file; the codec reconstructs the remaining channels, so the read image has
one channel per file). -/
def morphologyFocusModern (files : List String) (focusImage : List (List (List ℤ)))
    (kwargsHaveCCoords : Bool) : Except String XImage :=
  if sameSet files expectedFocusFiles then
    if kwargsHaveCCoords then
      .error "AssertionError: the channel names for the morphology focus images are handled internally"
    else
      .ok (getImages focusImage (some focusChannelNames))
  else
    .error "AssertionError: unexpected focus files"

/-- A labels element as produced by `Labels2DModel.parse` in `_get_labels`. -/
structure XLabels where
  data : List (List ℤ)
  dims : List String
  transform : XTransform
deriving DecidableEq

/-- `_get_labels(path, file, specs, mask_index, idx, ...)`: extract the
zipped zarr store, read plane `masks/{mask_index}` and parse it with dims
`(y, x)` and an identity transform. A missing plane is a fatal lookup
error. The `idx` argument is accepted but never used — the version branch
that would consume it is commented out in the source. -/
def getLabels (masks : List (List (List ℤ))) (maskIndex : Nat)
    (idx : Option (List RawId)) : Except String XLabels :=
  match masks.get? maskIndex with
  | none => .error "KeyError: missing mask plane"
  | some m => .ok ⟨m, ["y", "x"], XTransform.identity⟩

/-- An aligned auxiliary image: its shape after normalisation, its dims
order, and the attached transform. -/
structure XAlignedImage where
  shape : List Nat
  dims : List String
  transform : XTransform
deriving DecidableEq

/-- The tail of `xenium_aligned_image` after shape normalisation: identity
transform when no alignment file was passed, otherwise the headerless CSV
grid parsed as an affine transform over input/output axes (x, y). -/
def alignedTransformOf (alignment : Option (List (List ℚ))) : XTransform :=
  match alignment with
  | none => XTransform.identity
  | some m => XTransform.affine m ["x", "y"] ["x", "y"]

/-- `xenium_aligned_image(image_path, alignment_file, ...)` on an already
read image of the given shape: a 4-dimensional array must be
`(1, y, x, 3)` and is squeezed to channel-last; a 3-dimensional array must
have 3 or 4 leading channels, with exactly 4 triggering the synthetic
zero-channel append; any other shape is a fatal input error. The alignment
argument carries the parsed rows of the CSV when a file was passed. -/
def xeniumAlignedImage (shape : List Nat) (alignment : Option (List (List ℚ))) :
    Except String XAlignedImage :=
  if shape.length = 4 then
    if shape.getD 0 0 = 1 then
      if shape.getD 3 0 = 3 then
        .ok ⟨shape.drop 1, ["y", "x", "c"], alignedTransformOf alignment⟩
      else .error "AssertionError: trailing dim is not 3"
    else .error "AssertionError: leading dim is not 1"
  else if shape.length = 3 then
    if shape.getD 0 0 = 3 ∨ shape.getD 0 0 = 4 then
      .ok ⟨(if shape.getD 0 0 = 4 then (shape.getD 0 0 + 1) :: shape.drop 1 else shape),
        ["c", "y", "x"], alignedTransformOf alignment⟩
    else .error "AssertionError: channel count is not 3 or 4"
  else .error "AssertionError: unsupported image shape"

/-- The per-image body of the `_add_aligned_images` loop, once the element
role has been recognised: collect the CSV files whose name equals the
expected co-derived alignment name, assert at most one matches (a fatal
ambiguity error, raised before the image is read), then parse the image
through `xenium_aligned_image` with the single match (or none). The
`csvContent` map models reading the headerless numeric grid of a CSV file. -/
def addAlignedImageStep (expectedFilename : String) (csvNames : List String)
    (shape : List Nat) (csvContent : String → List (List ℚ)) :
    Except String XAlignedImage :=
  let alignmentFiles := csvNames.filter (fun f => f = expectedFilename)
  if alignmentFiles.length > 1 then
    .error "AssertionError: found more than one alignment file"
  else
    xeniumAlignedImage shape ((alignmentFiles.head?).map csvContent)

/-- `xenium_explorer_selection(path, pixel_size)`:
`pd.read_csv(path, skiprows=2)` drops the two header rows, and the polygon
vertices are the remaining rows divided by `pixel_size`
(`Polygon(df.values / pixel_size)`). -/
def xeniumExplorerSelection (csvRows : List (ℚ × ℚ)) (pixelSize : ℚ) : List (ℚ × ℚ) :=
  (csvRows.drop 2).map (fun p => (p.1 / pixelSize, p.2 / pixelSize))

/-- `_get_points(path, specs)`: the transcript stream decodes the feature
name of every row element-wise and attaches the pixel scale; it takes no
identifier list. One row is `(x, y, z, feature name, cell id)`. -/
def getPoints (rows : List (ℚ × ℚ × ℚ × RawId × RawId)) (specs : XSpecs) :
    List (ℚ × ℚ × ℚ × RawId × RawId) × XTransform :=
  (rows.map (fun r => (r.1, r.2.1, r.2.2.1, decodeOne r.2.2.2.1, r.2.2.2.2)),
    pixelScaleOf specs)

/-
Shared helper lemmas and concrete fixtures.
-/

/-- The default integer row index of a freshly built frame is unique, so
the `np.unique(geo_df.index).size == len(geo_df)` assertion of the legacy
branch always passes before re-indexing. -/
theorem rangeDedupLength (n : Nat) : (List.range n).dedup.length = n := by
  rw [List.Nodup.dedup (List.nodup_range n)]
  exact List.length_range n

/-- Every entry of a `zerosLike` channel is zero. -/
theorem zerosLike_all_zero (c : List (List ℤ)) :
    ∀ row ∈ zerosLike c, ∀ v ∈ row, v = 0 := by
  intro row hrow v hv
  simp only [zerosLike, List.mem_map] at hrow
  obtain ⟨r, _, rfl⟩ := hrow
  simp only [List.mem_map] at hv
  obtain ⟨_, _, rfl⟩ := hv
  rfl

/-- Behaviour of `_get_polygons` on the legacy path with an identifier
list supplied: the three remaining assertions in source order. -/
theorem getPolygons_legacy_some (rows : List (RawId × ℚ × ℚ)) (specs : XSpecs)
    (idx : List RawId) (hleg : isLegacy (xeniumVersionOf specs) = true) :
    getPolygons rows specs (some idx) =
      if idx.length ≠ (sortedKeys rows).length then
        .error "AssertionError: length mismatch"
      else if decodeCellIdColumn (sortedKeys rows) ≠ idx then
        .error "AssertionError: index differs from idx"
      else .ok ⟨idx, polysOf rows, pixelScaleOf specs, 0⟩ := by
  simp only [getPolygons, hleg, if_true, rangeDedupLength, ne_eq, not_true_eq_false,
    if_false]

/-- A legacy-version specification fixture (`xenium-1.9.0 < 2.0.0`). -/
def specsLegacy : XSpecs := ⟨"xenium-1.9.0", 1 / 2, "cell_circles"⟩

/-- A modern-version specification fixture (`xenium-2.0.0`). -/
def specsModern : XSpecs := ⟨"xenium-2.0.0", 1 / 2, "cell_boundaries"⟩

/-- Boundary rows for two cells, each ring closed by a repeated vertex. -/
def rows0 : List (RawId × ℚ × ℚ) :=
  [(RawId.num 1, (0, 0)), (RawId.num 1, (1, 0)), (RawId.num 1, (0, 0)),
   (RawId.num 2, (5, 5)), (RawId.num 2, (6, 5)), (RawId.num 2, (5, 5))]

/-- A one-row metadata fixture with nucleus area 4. -/
def md0 : List MetaRow := [⟨RawId.str "c1", 1, 2, 4⟩]

/-- A one-plane label-mask fixture. -/
def demoMasks : List (List (List ℤ)) := [[[0, 1], [1, 2]]]

/-
Claim theorems.
-/

/-- Claim C1. On an unparsable instrument-software version string the
parser returns the unknown-version sentinel, emitting exactly one warning
when warnings are not suppressed and none when they are; but the ingestion
entry point `xenium` then evaluates `version < parse("2.0.0")` on the
sentinel, which in Python raises `TypeError` and aborts the run instead of
continuing with the assume-latest behaviour promised by the warning text —
while on parsable versions the same branch succeeds, treating `1.9.0` as
legacy and `2.0.0.6-35` as not legacy. -/
theorem c1_unparsable_version_aborts_run :
    (parseVersionOfXeniumAnalyzer "Unknown" false).1 = none ∧
    (parseVersionOfXeniumAnalyzer "Unknown" false).2 = 1 ∧
    (parseVersionOfXeniumAnalyzer "Unknown" true).2 = 0 ∧
    xeniumVersionBranch (parseVersionOfXeniumAnalyzer "Unknown" false).1 =
      .error "TypeError: comparison between NoneType and Version is unsupported" ∧
    xeniumVersionBranch (parseVersionOfXeniumAnalyzer "xenium-1.9.0" false).1 = .ok true ∧
    xeniumVersionBranch (parseVersionOfXeniumAnalyzer "xenium-2.0.0.6-35-ga7e17149a" false).1 =
      .ok false :=
  ⟨by decide, by decide, by decide, rfl, rfl, rfl⟩

/-- Claim C2. In `_get_polygons`, for a parsed version `< 2.0.0` a
successful run forces the grouped (decoded) polygon index to equal the
supplied identifier list element for element and in order, and any
mismatch — a permutation of the same identifiers included — fails an
assertion (a missing or wrong-length list likewise); for version `≥ 2.0.0`
or an unknown version the index is taken from the grouped keys, the run
always succeeds, and duplicate identifiers only set one non-fatal
warning. -/
theorem c2_polygon_index_validation (rows : List (RawId × ℚ × ℚ)) (specs : XSpecs)
    (idx : List RawId) (idxOpt : Option (List RawId)) :
    (isLegacy (xeniumVersionOf specs) = true →
      (∀ r, getPolygons rows specs (some idx) = .ok r →
        r.index = idx ∧ decodeCellIdColumn (sortedKeys rows) = idx) ∧
      (idx.length = (sortedKeys rows).length →
        decodeCellIdColumn (sortedKeys rows) ≠ idx →
        getPolygons rows specs (some idx) = .error "AssertionError: index differs from idx") ∧
      (idx.length ≠ (sortedKeys rows).length →
        getPolygons rows specs (some idx) = .error "AssertionError: length mismatch") ∧
      getPolygons rows specs none = .error "AssertionError: idx is None") ∧
    (isLegacy (xeniumVersionOf specs) = false →
      getPolygons rows specs idxOpt =
        .ok ⟨decodeCellIdColumn (sortedKeys rows), polysOf rows, pixelScaleOf specs,
          if (decodeCellIdColumn (sortedKeys rows)).dedup.length ≠
              (decodeCellIdColumn (sortedKeys rows)).length then 1 else 0⟩) := by
  constructor
  · intro hleg
    refine ⟨?_, ?_, ?_, ?_⟩
    · intro r hr
      rw [getPolygons_legacy_some rows specs idx hleg] at hr
      by_cases hlen : idx.length ≠ (sortedKeys rows).length
      · rw [if_pos hlen] at hr; cases hr
      · rw [if_neg hlen] at hr
        by_cases hidx : decodeCellIdColumn (sortedKeys rows) ≠ idx
        · rw [if_pos hidx] at hr; cases hr
        · rw [if_neg hidx] at hr
          cases hr
          exact ⟨rfl, not_not.mp hidx⟩
    · intro hlen hidx
      rw [getPolygons_legacy_some rows specs idx hleg, if_neg (by simp [hlen]),
        if_pos hidx]
    · intro hlen
      rw [getPolygons_legacy_some rows specs idx hleg, if_pos hlen]
    · simp only [getPolygons, hleg, if_true]
  · intro hleg
    simp only [getPolygons, hleg, Bool.false_eq_true, if_false]

/-- Claim C2 witness: a permutation of the two legacy identifiers fails
the order-sensitive assertion, while on a modern dataset the same rows
succeed with the grouped keys as index. -/
theorem c2_witness :
    getPolygons rows0 specsLegacy (some [RawId.num 2, RawId.num 1]) =
      .error "AssertionError: index differs from idx" ∧
    getPolygons rows0 specsModern none =
      .ok ⟨decodeCellIdColumn (sortedKeys rows0), polysOf rows0, pixelScaleOf specsModern,
        if (decodeCellIdColumn (sortedKeys rows0)).dedup.length ≠
            (decodeCellIdColumn (sortedKeys rows0)).length then 1 else 0⟩ := by
  have h1 := c2_polygon_index_validation rows0 specsLegacy [RawId.num 2, RawId.num 1] none
  have h2 := c2_polygon_index_validation rows0 specsModern [RawId.num 2, RawId.num 1] none
  exact ⟨(h1.1 (by decide)).2.1 (by decide) (by decide), h2.2 (by decide)⟩

/-- Claim C3. `_get_tables_and_circles` asserts element-for-element,
order-sensitive equality between the stringified metadata cell identifiers
and the matrix observation names before anything else: whenever the two
sequences differ, extraction fails with the data-integrity error and no
table is returned. -/
theorem c3_table_identifier_assert (obsNames : List String) (metadata : List MetaRow)
    (flag : Bool) (specs : XSpecs)
    (h : metadata.map (fun r => pyStr r.cellId) ≠ obsNames) :
    getTablesAndCircles obsNames metadata flag specs =
      .error "AssertionError: cell ids differ from obs names" := by
  unfold getTablesAndCircles
  rw [if_neg h]

/-- Claim C3 witness: one metadata row whose stringified identifier
differs from the observation name is fatal. -/
theorem c3_witness :
    getTablesAndCircles ["c2"] md0 true specsModern =
      .error "AssertionError: cell ids differ from obs names" :=
  c3_table_identifier_assert ["c2"] md0 true specsModern (by decide)

/-- Claim C4. On the modern morphology-focus path the set of `.ome.tif`
files must equal exactly the four expected channel filenames for indices
0–3 — any other set is a fatal assertion — and on success the image read
through `_get_images` gains the synthetic all-zero channel, so a four-file
read yields exactly five channels named after the four real channels plus
`"dummy"`. -/
theorem c4_modern_focus_five_channels (files : List String)
    (focusImage : List (List (List ℤ))) (c0 : List (List ℤ))
    (rest : List (List (List ℤ))) :
    (sameSet files expectedFocusFiles = false →
      morphologyFocusModern files focusImage false =
        .error "AssertionError: unexpected focus files") ∧
    (sameSet files expectedFocusFiles = true → focusImage = c0 :: rest →
      morphologyFocusModern files focusImage false =
        .ok (getImages focusImage (some focusChannelNames)) ∧
      (getImages focusImage (some focusChannelNames)).channels =
        focusImage ++ [zerosLike c0] ∧
      (focusImage.length = 4 →
        (getImages focusImage (some focusChannelNames)).channels.length = 5) ∧
      (getImages focusImage (some focusChannelNames)).cCoords =
        some [morphologyFocusChannelName 0, morphologyFocusChannelName 1,
          morphologyFocusChannelName 2, morphologyFocusChannelName 3, "dummy"] ∧
      ∀ row ∈ zerosLike c0, ∀ v ∈ row, v = 0) := by
  constructor
  · intro hno
    simp only [morphologyFocusModern, hno, Bool.false_eq_true, if_false]
  · intro hyes hcons
    refine ⟨?_, ?_, ?_, rfl, zerosLike_all_zero c0⟩
    · simp only [morphologyFocusModern, hyes, if_true, Bool.false_eq_true, if_false]
    · subst hcons
      simp [getImages]
    · intro h4
      simp [getImages, h4]

/-- Claim C4 witness: the four expected filenames (listed in another
order) succeed with a five-channel image, while a directory holding only
three of the files fails the assertion. -/
theorem c4_witness :
    morphologyFocusModern (List.reverse expectedFocusFiles)
      [[[1]], [[2]], [[3]], [[4]]] false =
      .ok (getImages [[[1]], [[2]], [[3]], [[4]]] (some focusChannelNames)) ∧
    (getImages [[[1]], [[2]], [[3]], [[4]]] (some focusChannelNames)).channels.length = 5 ∧
    morphologyFocusModern [morphologyFocusChannelImage 0, morphologyFocusChannelImage 1,
      morphologyFocusChannelImage 2] [[[1]], [[2]], [[3]]] false =
      .error "AssertionError: unexpected focus files" := by
  have h := c4_modern_focus_five_channels (List.reverse expectedFocusFiles)
    [[[1]], [[2]], [[3]], [[4]]] [[1]] [[[2]], [[3]], [[4]]]
  have h3 := c4_modern_focus_five_channels [morphologyFocusChannelImage 0,
    morphologyFocusChannelImage 1, morphologyFocusChannelImage 2]
    [[[1]], [[2]], [[3]]] [[1]] [[[2]], [[3]]]
  have hy := h.2 (by decide) rfl
  exact ⟨hy.1, hy.2.2.1 (by decide), h3.1 (by decide)⟩

/-- Claim C5. When and only when `cells_as_circles` is set, the extractor
additionally returns the circle collection: centers are the per-cell
spatial coordinates, the index is the decoded cell identifiers, the pixel
scale is attached, and each radius is `sqrt(nucleus_area / pi)` — which,
in exact arithmetic, squares back to `nucleus_area / pi` for nonnegative
areas. -/
theorem c5_circles_iff_flag (obsNames : List String) (metadata : List MetaRow)
    (specs : XSpecs) (hpass : metadata.map (fun r => pyStr r.cellId) = obsNames) :
    getTablesAndCircles obsNames metadata true specs =
      .ok (mkTable obsNames metadata specs, some (mkCircles metadata specs)) ∧
    getTablesAndCircles obsNames metadata false specs =
      .ok (mkTable obsNames metadata specs, none) ∧
    (mkCircles metadata specs).centers = metadata.map (fun r => (r.x, r.y)) ∧
    (mkCircles metadata specs).index =
      decodeCellIdColumn (metadata.map (fun r => r.cellId)) ∧
    (mkCircles metadata specs).transform = pixelScaleOf specs ∧
    (mkCircles metadata specs).radii =
      metadata.map (fun r => Real.sqrt ((r.nucleusArea : ℝ) / Real.pi)) ∧
    ∀ a : ℚ, 0 ≤ a → Real.sqrt ((a : ℝ) / Real.pi) ^ 2 * Real.pi = (a : ℝ) := by
  refine ⟨?_, ?_, rfl, rfl, rfl, rfl, ?_⟩
  · unfold getTablesAndCircles
    rw [if_pos hpass, if_pos rfl]
  · unfold getTablesAndCircles
    rw [if_pos hpass, if_neg (by simp)]
  · intro a ha
    have hπ : (0 : ℝ) < Real.pi := Real.pi_pos
    have h1 : Real.sqrt ((a : ℝ) / Real.pi) ^ 2 = (a : ℝ) / Real.pi :=
      Real.sq_sqrt (div_nonneg (by exact_mod_cast ha) hπ.le)
    rw [h1, div_mul_cancel₀ _ hπ.ne']

/-- Claim C5 witness: a passing one-cell input returns the circle
collection exactly when the flag is set, with radius `sqrt(4 / pi)`
squaring back to the nucleus area. -/
theorem c5_witness :
    getTablesAndCircles ["c1"] md0 true specsModern =
      .ok (mkTable ["c1"] md0 specsModern, some (mkCircles md0 specsModern)) ∧
    getTablesAndCircles ["c1"] md0 false specsModern =
      .ok (mkTable ["c1"] md0 specsModern, none) ∧
    (mkCircles md0 specsModern).radii = [Real.sqrt (((4 : ℚ) : ℝ) / Real.pi)] ∧
    Real.sqrt (((4 : ℚ) : ℝ) / Real.pi) ^ 2 * Real.pi = ((4 : ℚ) : ℝ) := by
  have h := c5_circles_iff_flag ["c1"] md0 specsModern (by decide)
  exact ⟨h.1, h.2.1, h.2.2.2.2.2.1, h.2.2.2.2.2.2 4 (by norm_num)⟩

/-- Claim C6. Every per-cell polygon is built from the ordered per-group
vertex list with the final (closing) vertex removed; in particular a
four-vertex ring whose last vertex repeats the first yields the
three-vertex polygon of its distinct vertices. -/
theorem c6_ring_closing_vertex_dropped :
    (∀ rows : List (RawId × ℚ × ℚ),
      polysOf rows = (sortedKeys rows).map (fun k => (groupVertices rows k).dropLast)) ∧
    ∀ v1 v2 v3 : ℚ × ℚ,
      poly [v1, v2, v3, v1] = [v1, v2, v3] ∧ (poly [v1, v2, v3, v1]).length = 3 :=
  ⟨fun _ => rfl, fun _ _ _ => ⟨rfl, rfl⟩⟩

/-- Claim C7. For a discovered aligned image: two or more CSV files
matching the expected co-derived alignment name are a fatal ambiguity
error, raised identically whatever the image holds (the image is not yet
read); exactly one match attaches the affine transform parsed from the
headerless grid with input/output axes (x, y); no match attaches the
identity transform. -/
theorem c7_alignment_file_discovery (expected f : String) (csvNames : List String)
    (shape shapeB : List Nat) (csvContent : String → List (List ℚ)) (h w : Nat) :
    ((csvNames.filter (fun n => n = expected)).length > 1 →
      addAlignedImageStep expected csvNames shape csvContent =
        .error "AssertionError: found more than one alignment file" ∧
      addAlignedImageStep expected csvNames shape csvContent =
        addAlignedImageStep expected csvNames shapeB csvContent) ∧
    (csvNames.filter (fun n => n = expected) = [f] → shape = [3, h, w] →
      addAlignedImageStep expected csvNames shape csvContent =
        .ok ⟨[3, h, w], ["c", "y", "x"],
          XTransform.affine (csvContent f) ["x", "y"] ["x", "y"]⟩) ∧
    (csvNames.filter (fun n => n = expected) = [] → shape = [3, h, w] →
      addAlignedImageStep expected csvNames shape csvContent =
        .ok ⟨[3, h, w], ["c", "y", "x"], XTransform.identity⟩) := by
  refine ⟨?_, ?_, ?_⟩
  · intro hgt
    constructor
    · simp only [addAlignedImageStep]
      rw [if_pos hgt]
    · simp only [addAlignedImageStep]
      rw [if_pos hgt, if_pos hgt]
  · intro hone hsh
    subst hsh
    simp only [addAlignedImageStep, hone]
    norm_num [xeniumAlignedImage, alignedTransformOf]
  · intro hnone hsh
    subst hsh
    simp only [addAlignedImageStep, hnone]
    norm_num [xeniumAlignedImage, alignedTransformOf]

/-- Claim C7 witness: two equal-named candidate CSVs are fatal
independently of the image shape; one candidate yields the parsed affine
transform; none yields the identity. -/
theorem c7_witness :
    addAlignedImageStep "img_alignment.csv" ["img_alignment.csv", "img_alignment.csv"]
      [3, 8, 9] (fun _ => [[1, 0, 0], [0, 1, 0], [0, 0, 1]]) =
      .error "AssertionError: found more than one alignment file" ∧
    addAlignedImageStep "img_alignment.csv" ["img_alignment.csv", "other.csv"]
      [3, 8, 9] (fun _ => [[1, 0, 0], [0, 1, 0], [0, 0, 1]]) =
      .ok ⟨[3, 8, 9], ["c", "y", "x"],
        XTransform.affine [[1, 0, 0], [0, 1, 0], [0, 0, 1]] ["x", "y"] ["x", "y"]⟩ ∧
    addAlignedImageStep "img_alignment.csv" ["other.csv"]
      [3, 8, 9] (fun _ => [[1, 0, 0], [0, 1, 0], [0, 0, 1]]) =
      .ok ⟨[3, 8, 9], ["c", "y", "x"], XTransform.identity⟩ := by
  have h1 := c7_alignment_file_discovery "img_alignment.csv" "img_alignment.csv"
    ["img_alignment.csv", "img_alignment.csv"] [3, 8, 9] [1, 2, 3]
    (fun _ => [[1, 0, 0], [0, 1, 0], [0, 0, 1]]) 8 9
  have h2 := c7_alignment_file_discovery "img_alignment.csv" "img_alignment.csv"
    ["img_alignment.csv", "other.csv"] [3, 8, 9] [1, 2, 3]
    (fun _ => [[1, 0, 0], [0, 1, 0], [0, 0, 1]]) 8 9
  have h3 := c7_alignment_file_discovery "img_alignment.csv" "img_alignment.csv"
    ["other.csv"] [3, 8, 9] [1, 2, 3]
    (fun _ => [[1, 0, 0], [0, 1, 0], [0, 0, 1]]) 8 9
  exact ⟨(h1.1 (by decide)).1, h2.2.1 (by decide) rfl, h3.2.2 (by decide) rfl⟩

/-- Claim C8. The exported selection parser drops exactly the two header
rows and divides every remaining vertex by the caller-supplied pixel size;
on rows `[[0,0],[10,0],[10,10],[0,10]]` with pixel size `0.5` the polygon
vertices are `[[0,0],[20,0],[20,20],[0,20]]`. -/
theorem c8_selection_two_headers_scaled (rows : List (ℚ × ℚ)) (pixelSize : ℚ)
    (h1 h2 : ℚ × ℚ) :
    xeniumExplorerSelection rows pixelSize =
      (rows.drop 2).map (fun p => (p.1 / pixelSize, p.2 / pixelSize)) ∧
    xeniumExplorerSelection [h1, h2, (0, 0), (10, 0), (10, 10), (0, 10)] (1 / 2) =
      [(0, 0), (20, 0), (20, 20), (0, 20)] := by
  refine ⟨rfl, ?_⟩
  norm_num [xeniumExplorerSelection]

/-- Claim C9 counterexample: two `_get_labels` runs differing only in the
identifier list passed to them produce the same label element — the list
cannot influence the output, contradicting the claimed dependence. -/
theorem c9_counterexample :
    getLabels demoMasks 0 (some [RawId.num 1]) = getLabels demoMasks 0 (some [RawId.num 2]) ∧
    (RawId.num 1 : RawId) ≠ RawId.num 2 :=
  ⟨rfl, by decide⟩

/-- Claim C9 as amended: only the polygon extractor consumes the supplied
identifier list (a legacy run without it fails the assertion); the label
extractor accepts the list but its output is independent of it, and the
point extractor takes no identifier list and just attaches the pixel
scale. -/
theorem c9_amended_extractor_dependence (masks : List (List (List ℤ)))
    (maskIndex : Nat) (idx1 idx2 : Option (List RawId))
    (rows : List (RawId × ℚ × ℚ)) (specs : XSpecs)
    (tr : List (ℚ × ℚ × ℚ × RawId × RawId))
    (hleg : isLegacy (xeniumVersionOf specs) = true) :
    getLabels masks maskIndex idx1 = getLabels masks maskIndex idx2 ∧
    getPolygons rows specs none = .error "AssertionError: idx is None" ∧
    (getPoints tr specs).2 = pixelScaleOf specs := by
  refine ⟨rfl, ?_, rfl⟩
  simp only [getPolygons, hleg, if_true]

/-- Claim C9 witness: on a legacy dataset the label extractor ignores the
list while the polygon extractor fails without one. -/
theorem c9_witness :
    getLabels demoMasks 0 (some [RawId.num 3]) = getLabels demoMasks 0 none ∧
    getPolygons rows0 specsLegacy none = .error "AssertionError: idx is None" ∧
    (getPoints [] specsLegacy).2 = pixelScaleOf specsLegacy :=
  c9_amended_extractor_dependence demoMasks 0 (some [RawId.num 3]) none rows0
    specsLegacy [] (by decide)

/-- Claim C10. Every image read through `_get_images` — legacy morphology
mip and focus included, on every version path — comes back with exactly
one more channel than the source array, the appended final channel being
all zeros, under an identity transform; the workaround is unconditional in
the helper, not gated on the modern focus regime. -/
theorem c10_zero_channel_on_every_image (image : List (List (List ℤ)))
    (cCoords : Option (List String)) (c0 : List (List ℤ))
    (rest : List (List (List ℤ))) (him : image = c0 :: rest) :
    (getImages image cCoords).channels = image ++ [zerosLike c0] ∧
    (getImages image cCoords).channels.length = image.length + 1 ∧
    (∀ row ∈ zerosLike c0, ∀ v ∈ row, v = 0) ∧
    (getImages image cCoords).transform = XTransform.identity := by
  subst him
  refine ⟨by simp [getImages], by simp [getImages], zerosLike_all_zero c0, rfl⟩

/-- Claim C10 witness: a single-channel legacy-style mip read (no channel
names passed) comes back with two channels, the second all zero. -/
theorem c10_witness :
    (getImages [[[7, 7], [7, 7]]] none).channels =
      [[[7, 7], [7, 7]]] ++ [zerosLike [[7, 7], [7, 7]]] ∧
    (getImages [[[7, 7], [7, 7]]] none).channels.length = 1 + 1 :=
  ⟨(c10_zero_channel_on_every_image [[[7, 7], [7, 7]]] none [[7, 7], [7, 7]] [] rfl).1,
   (c10_zero_channel_on_every_image [[[7, 7], [7, 7]]] none [[7, 7], [7, 7]] [] rfl).2.1⟩
